import Mathlib

set_option linter.unusedVariables false

/-!
Verification of the voice-and-text chat client (`src/frontend/App.tsx`) against
its natural-language specification.

The source is a single React Native component.  Its session logic is embedded
shallowly below:

* pure data (`Message`, session state) becomes Lean structures;
* each handler (`addMessage`, `sendToBackend`, `handleSend`, `toggleListening`,
  `Voice.onSpeechError`) becomes a Lean function from its inputs (and, where
  relevant, the session state) to a new state and/or an ordered list of
  primitive `Effect`s, listed in the exact execution order of the source;
* the nondeterministic environment (the `fetch` round trip, the Android
  permission dialog) is a parameter: a `FetchResult` value describes what the
  network did, a `Bool` describes what the permission dialog answered.

React closure semantics, which matter for one of the properties: every
`const f = ...` inside the component body captures the state values of the
render in which it was created, and an `await`ed continuation keeps reading
those captured bindings even if `setX` has meanwhile produced a newer render.
-/

namespace JarvisApp

/-- Sender tag of a chat message (`'user' | 'llm'` in `App.tsx` line 25). -/
inductive Sender
  | user
  | llm
deriving DecidableEq, Repr

/-- The `Message` record of `App.tsx` lines 22–26: an id string, the display
text and the sender tag. -/
structure Message where
  id : String
  text : String
  sender : Sender
deriving DecidableEq, Repr

/-- Message construction from `addMessage` (lines 105–109): the id is
`Date.now().toString()`, i.e. the decimal rendering of the creation-time
millisecond clock, here passed in as `now : Nat`. -/
def mkMessage (now : Nat) (text : String) (sender : Sender) : Message :=
  { id := toString now, text := text, sender := sender }

/-- `addMessage` (lines 104–115): constructs a `Message` from the given text and
sender and appends it to the message list.  The source performs no validation of
`text` whatsoever; the scroll-to-end timer is presentation-only and is omitted. -/
def addMessage (now : Nat) (text : String) (sender : Sender)
    (messages : List Message) : List Message :=
  messages ++ [mkMessage now text sender]

/-- The component's session state: the five `useState` hooks of `App.tsx`
lines 29–33 (`messages`, `isListening`, `manualText`, `voiceOutputEnabled`,
`isSending`). -/
structure SessionState where
  messages : List Message
  isListening : Bool
  manualText : String
  voiceOutputEnabled : Bool
  isSending : Bool
deriving DecidableEq, Repr

/-- What `await response.json()` did: either the body failed to parse as JSON
(the promise rejected), or it parsed to an object whose `answer` field is
absent (`none`) or a string. -/
inductive BodyParse
  | parseError
  | json (answer : Option String)
deriving DecidableEq, Repr

/-- What the `fetch` of `sendToBackend` (line 120) did: either the transport
failed (the fetch promise rejected), or an HTTP response with some status code
arrived and its body parsed as described.  `fetch` resolves for every HTTP
status; only transport failures reject. -/
inductive FetchResult
  | networkError
  | response (status : Nat) (body : BodyParse)
deriving DecidableEq, Repr

/-- The three dispatch outcomes named by the specification. -/
inductive Outcome
  | answerReceived (text : String)
  | noAnswer
  | requestFailed
deriving DecidableEq, Repr

/-- How `sendToBackend` (lines 119–141) classifies a fetch result.  A transport
failure or a JSON-parse failure lands in the `catch` block (`requestFailed`).
Otherwise line 130 tests JavaScript truthiness of `data.answer`: an absent
field or the empty string is falsy (`noAnswer`), a non-empty string is truthy
(`answerReceived`).  Note that the source never reads `response.status` or
`response.ok`: the HTTP status code does not enter the classification. -/
def outcomeOf : FetchResult → Outcome
  | FetchResult.networkError => Outcome.requestFailed
  | FetchResult.response _ BodyParse.parseError => Outcome.requestFailed
  | FetchResult.response _ (BodyParse.json none) => Outcome.noAnswer
  | FetchResult.response _ (BodyParse.json (some a)) =>
      if a = "" then Outcome.noAnswer else Outcome.answerReceived a

/-- The primitive observable effects the handlers perform, in source order:
state-setter calls, transcript appends of assistant messages, `Tts.speak`
commands, `Alert.alert` reports, and `Voice.start`/`Voice.stop` commands. -/
inductive Effect
  | setSending (b : Bool)
  | appendLlm (text : String)
  | speak (text : String)
  | alert (title msg : String)
  | voiceStart (locale : String)
  | voiceStop
deriving DecidableEq, Repr

/-- The `try` block of `sendToBackend` after the response is classified
(lines 129–141): on a truthy answer, append it as an `llm` message and, if the
captured `voiceOutputEnabled` binding is true, speak it (lines 130–135); on a
falsy or absent answer, append the fixed fallback string (line 137); in the
`catch` block, report a user-facing error alert (line 141). -/
def tryBody (capturedVoice : Bool) (r : FetchResult) : List Effect :=
  match outcomeOf r with
  | Outcome.answerReceived a =>
      Effect.appendLlm a :: (if capturedVoice then [Effect.speak a] else [])
  | Outcome.noAnswer => [Effect.appendLlm "No response from LLM."]
  | Outcome.requestFailed =>
      [Effect.alert "Error" "Failed to get response from the server."]

/-- `sendToBackend` (lines 117–145) as its ordered effect trace:
`setIsSending(true)` first (line 118), then the `try`/`catch` body, then the
`finally` block's `setIsSending(false)` (line 143) — which in JavaScript runs
after the `try` or `catch` body has completed.  `capturedVoice` is the value of
`voiceOutputEnabled` captured by this closure at the render that dispatched the
request. -/
def sendToBackend (capturedVoice : Bool) (r : FetchResult) : List Effect :=
  Effect.setSending true :: (tryBody capturedVoice r ++ [Effect.setSending false])

/-- A dispatch during which the user may have toggled `voiceOutputEnabled`
while the request was in flight.  `vDispatch` is the value captured by the
`sendToBackend` closure when the request was dispatched; `vResponse` is the
component state's value at the moment the response arrives.  Per React closure
semantics the `await`ed continuation (lines 129–141) reads only its captured
binding, so the trace is that of `sendToBackend vDispatch` and `vResponse`
plays no role. -/
def dispatchWithToggle (vDispatch vResponse : Bool) (r : FetchResult) :
    List Effect :=
  sendToBackend vDispatch r

/-- Interpretation of one effect on the session state.  `setSending` updates
the `isSending` flag, `appendLlm` appends an assistant message (with the
ambient clock value `now`), and the speak / alert / voice commands do not touch
session state. -/
def applyEffect (now : Nat) (s : SessionState) : Effect → SessionState
  | Effect.setSending b => { s with isSending := b }
  | Effect.appendLlm t => { s with messages := addMessage now t Sender.llm s.messages }
  | Effect.speak _ => s
  | Effect.alert _ _ => s
  | Effect.voiceStart _ => s
  | Effect.voiceStop => s

/-- Runs an effect trace on the session state, left to right. -/
def applyEffects (now : Nat) (s : SessionState) (l : List Effect) : SessionState :=
  l.foldl (applyEffect now) s

/-- JavaScript's `String.prototype.trim`: the string with leading and trailing
whitespace removed (defined by structural recursion over the character list so
that it evaluates inside the kernel). -/
def trimWs (s : String) : String :=
  ⟨((s.data.dropWhile Char.isWhitespace).reverse.dropWhile Char.isWhitespace).reverse⟩

/-- `handleSend` (lines 147–156): trim the buffer; if the trimmed text is empty
(falsy), report the "Input Required" alert and stop.  Otherwise append the
trimmed text as a `user` message, clear the buffer, and dispatch the request
(returned as `some text`; the asynchronous `sendToBackend` trace is modelled
separately).  `handleSend` reads no flag other than `manualText`: in
particular it performs no check of `isSending`. -/
def handleSend (now : Nat) (s : SessionState) :
    SessionState × List Effect × Option String :=
  let textToSend := trimWs s.manualText
  if textToSend = "" then
    (s, [Effect.alert "Input Required" "Please enter some text."], none)
  else
    ({ s with messages := addMessage now textToSend Sender.user s.messages,
              manualText := "" },
     [], some textToSend)

/-- The `disabled` prop of the send button (line 221): `disabled={isSending}`. -/
def sendButtonDisabled (s : SessionState) : Bool :=
  s.isSending

/-- `requestMicrophonePermission` (lines 70–83): on Android, the dialog's
answer decides; on every other platform the function returns `true` without
prompting. -/
def requestMicrophonePermission (platformAndroid granted : Bool) : Bool :=
  if platformAndroid then granted else true

/-- `toggleListening` (lines 85–102): when listening, issue `Voice.stop()`;
otherwise request microphone permission and, only if granted, issue
`Voice.start('en-US')`.  When permission is denied the function does nothing
at all: no command, no alert, no state update.  The function never writes
`isListening` (only the `Voice.onSpeechStart`/`onSpeechEnd`/`onSpeechError`
handlers do), so the returned state is the input state in every branch. -/
def toggleListening (s : SessionState) (platformAndroid granted : Bool) :
    SessionState × List Effect :=
  if s.isListening then (s, [Effect.voiceStop])
  else if requestMicrophonePermission platformAndroid granted then
    (s, [Effect.voiceStart "en-US"])
  else (s, [])

/-- The `Voice.onSpeechError` handler (lines 59–63): set `isListening` to
false and report the engine's error message in a "Speech Recognition Error"
alert.  No other piece of session state is touched (the `console.log` is not
user-facing and is omitted). -/
def onSpeechError (reason : String) (s : SessionState) :
    SessionState × List Effect :=
  ({ s with isListening := false },
   [Effect.alert "Speech Recognition Error" reason])

/-- True of the `setIsSending(false)` effect only. -/
def isSetSendingFalse : Effect → Bool
  | Effect.setSending false => true
  | _ => false

/-- True of the effects that deliver a dispatch outcome to the user: the
assistant transcript append, the speak command, and the error alert. -/
def isOutcomeDelivery : Effect → Bool
  | Effect.appendLlm _ => true
  | Effect.speak _ => true
  | Effect.alert _ _ => true
  | _ => false

/-- C1 (counterexample): the claim says that when `voiceOutputEnabled` is true
at dispatch but false when the response arrives, no speak command is issued.
Here the dispatch-time captured value is `true`, the response-time value is
`false`, the answer is "hi" — and a speak command is nevertheless in the
trace, because the closure reads its dispatch-time binding. -/
theorem c1_counterexample :
    Effect.speak "hi" ∈
      dispatchWithToggle true false
        (FetchResult.response 200 (BodyParse.json (some "hi"))) := by
  decide

/-- C1 (amended): the speak decision is made from the value of
`voiceOutputEnabled` captured when the request was dispatched, not the value
when the response arrives: a speak command for `t` is issued iff the
dispatch-time value was true and the outcome is `answerReceived t`, for every
response-time value. -/
theorem c1_speak_uses_dispatch_time_value (vDispatch vResponse : Bool)
    (r : FetchResult) (t : String) :
    (Effect.speak t ∈ dispatchWithToggle vDispatch vResponse r) ↔
      (vDispatch = true ∧ outcomeOf r = Outcome.answerReceived t) := by
  unfold dispatchWithToggle sendToBackend tryBody
  cases h : outcomeOf r <;> cases vDispatch <;>
    simp [h, eq_comm]

/-- C2 (counterexample): a response with HTTP status 500 whose body parses as
JSON with answer "oops" yields `answerReceived "oops"`, not `requestFailed`:
the source never reads the response status, contradicting the claim that every
non-2xx response is treated as a failure. -/
theorem c2_counterexample :
    outcomeOf (FetchResult.response 500 (BodyParse.json (some "oops"))) =
      Outcome.answerReceived "oops" := by
  decide

/-- C2 (amended): the HTTP status code is never consulted: for every status, a
response yields `requestFailed` iff its body fails to parse as JSON; a
network/transport failure also yields `requestFailed`. -/
theorem c2_status_never_consulted (status : Nat) (body : BodyParse) :
    (outcomeOf (FetchResult.response status body) = Outcome.requestFailed ↔
      body = BodyParse.parseError)
    ∧ outcomeOf FetchResult.networkError = Outcome.requestFailed := by
  refine ⟨?_, rfl⟩
  cases body with
  | parseError => simp [outcomeOf]
  | json ans =>
      cases ans with
      | none => simp [outcomeOf]
      | some a => simp only [outcomeOf]; split <;> simp

/-- C3 (counterexample): in the trace of a successful dispatch (answer "hi"),
the `setIsSending(false)` reset does not precede the outcome delivery: the
assistant append happens at index 1 and the reset at index 2, because the
source resets the flag in a `finally` block that runs after the `try` body. -/
theorem c3_counterexample :
    ¬ ((sendToBackend false (FetchResult.response 200 (BodyParse.json (some "hi")))).findIdx
          isSetSendingFalse
        < (sendToBackend false (FetchResult.response 200 (BodyParse.json (some "hi")))).findIdx
          isOutcomeDelivery) := by
  decide

/-- C3 (amended): in all three outcome cases the `sending` flag is reset to
false strictly after the outcome is delivered, not before: the trace is
`setSending true`, then the outcome-delivery effects (at least one, none of
which is the reset), then `setSending false` as the final effect. -/
theorem c3_sending_reset_after_delivery (v : Bool) (r : FetchResult) :
    sendToBackend v r =
      Effect.setSending true :: (tryBody v r ++ [Effect.setSending false])
    ∧ (tryBody v r).any isOutcomeDelivery = true
    ∧ (tryBody v r).all (fun e => ! isSetSendingFalse e) = true := by
  refine ⟨rfl, ?_, ?_⟩ <;>
  · unfold tryBody
    cases outcomeOf r <;> cases v <;>
      simp [isOutcomeDelivery, isSetSendingFalse]

/-- C4 (code evaluated at the failing input): two messages created in the same
millisecond (`Date.now() = 12345` for both) receive the identical id "12345",
so ids of same-instant messages collide, contrary to the specified uniqueness
(and to the uniqueness the `FlatList` `keyExtractor` relies on). -/
theorem c4_same_instant_ids_collide :
    (addMessage 12345 "second" Sender.llm
        (addMessage 12345 "first" Sender.user [])).map Message.id =
      ["12345", "12345"] := by
  decide

/-- C5 (counterexample): the store's append operation accepts whitespace-only
text: `addMessage` with text " " constructs a `Message` and appends it, with no
failure path — contradicting the claim that such a call fails with
`InvalidMessage` and adds nothing. -/
theorem c5_counterexample :
    addMessage 7 " " Sender.llm [] =
      [{ id := "7", text := " ", sender := Sender.llm }] := by
  decide

/-- C5 (amended): the append operation performs no validation and always
appends, whatever the text; the empty-input rejection lives solely in the
caller `handleSend`, which, when the trimmed buffer is empty, leaves the state
unchanged, dispatches nothing, and reports the "Input Required" alert. -/
theorem c5_append_unvalidated_guard_in_caller (now : Nat) (text : String)
    (sender : Sender) (msgs : List Message) (s : SessionState)
    (h : trimWs s.manualText = "") :
    addMessage now text sender msgs = msgs ++ [mkMessage now text sender]
    ∧ (handleSend now s).1 = s
    ∧ (handleSend now s).2.2 = none
    ∧ (handleSend now s).2.1 =
        [Effect.alert "Input Required" "Please enter some text."] := by
  refine ⟨rfl, ?_, ?_, ?_⟩ <;> simp [handleSend, h]

/-- Concrete session state with a whitespace-only input buffer. -/
def c5State : SessionState :=
  { messages := [], isListening := false, manualText := "  ",
    voiceOutputEnabled := false, isSending := false }

/-- C5 (witness): the amended theorem applied at a concrete whitespace-only
buffer. -/
theorem c5_witness :
    addMessage 0 "  " Sender.llm [] = [] ++ [mkMessage 0 "  " Sender.llm]
    ∧ (handleSend 0 c5State).1 = c5State
    ∧ (handleSend 0 c5State).2.2 = none
    ∧ (handleSend 0 c5State).2.1 =
        [Effect.alert "Input Required" "Please enter some text."] :=
  c5_append_unvalidated_guard_in_caller 0 "  " Sender.llm [] c5State (by decide)

/-- Concrete session state that is mid-send with a non-empty buffer. -/
def c6State : SessionState :=
  { messages := [], isListening := false, manualText := "hello",
    voiceOutputEnabled := false, isSending := true }

/-- C6 (counterexample): the claim says the send action is never disabled
while `sending` is true; but in a state with `isSending = true` the send
button's `disabled` prop is true (`disabled={isSending}` in the source). -/
theorem c6_counterexample : sendButtonDisabled c6State = true := rfl

/-- C6 (amended): the `handleSend` handler itself contains no sending guard —
invoked in any state with a non-empty trimmed buffer it appends the user
message and dispatches, even while `isSending` is true — but the send button is
disabled while `isSending` is true, so the UI surface does block overlapping
sends. -/
theorem c6_button_disabled_handler_unguarded (now : Nat) (s : SessionState)
    (hsend : s.isSending = true) (hbuf : trimWs s.manualText ≠ "") :
    sendButtonDisabled s = true
    ∧ (handleSend now s).2.2 = some (trimWs s.manualText)
    ∧ (handleSend now s).1.messages =
        addMessage now (trimWs s.manualText) Sender.user s.messages := by
  refine ⟨hsend, ?_, ?_⟩ <;> simp [handleSend, hbuf]

/-- C6 (witness): the amended theorem applied at a concrete mid-send state. -/
theorem c6_witness :
    sendButtonDisabled c6State = true
    ∧ (handleSend 0 c6State).2.2 = some (trimWs c6State.manualText)
    ∧ (handleSend 0 c6State).1.messages =
        addMessage 0 (trimWs c6State.manualText) Sender.user c6State.messages :=
  c6_button_disabled_handler_unguarded 0 c6State rfl (by decide)

/-- Concrete idle session state. -/
def c7State : SessionState :=
  { messages := [], isListening := false, manualText := "",
    voiceOutputEnabled := false, isSending := false }

/-- C7 (counterexample): a `toggleListening` call while not listening, on
Android with the permission dialog answering denied, produces the unchanged
state and the empty effect trace: no `Voice.start` (the transition indeed does
not occur) but also no alert of any kind — contradicting the claim that a
`PermissionDenied` condition is surfaced to the user. -/
theorem c7_counterexample :
    toggleListening c7State true false = (c7State, []) := rfl

/-- C7 (amended): when not listening and microphone permission is denied, the
state transition does not occur and `listening` is unchanged, but the denial is
silently ignored: no command is issued and nothing is surfaced to the user. -/
theorem c7_denied_silent_noop (s : SessionState) (android granted : Bool)
    (h1 : s.isListening = false)
    (h2 : requestMicrophonePermission android granted = false) :
    toggleListening s android granted = (s, []) := by
  simp [toggleListening, h1, h2]

/-- C7 (witness): the amended theorem applied at a concrete idle state on
Android with the dialog denying. -/
theorem c7_witness : toggleListening c7State true false = (c7State, []) :=
  c7_denied_silent_noop c7State true false rfl rfl

/-- C8: for every dispatch that ends in `RequestFailed` (transport failure or
unparseable response), running its effect trace leaves the transcript
unchanged, leaves `sending` false afterwards, and the trace contains the
user-facing error alert. -/
theorem c8_request_failed_frame (v : Bool) (now : Nat) (s : SessionState)
    (r : FetchResult)
    (h : r = FetchResult.networkError ∨
      ∃ st, r = FetchResult.response st BodyParse.parseError) :
    (applyEffects now s (sendToBackend v r)).messages = s.messages
    ∧ (applyEffects now s (sendToBackend v r)).isSending = false
    ∧ Effect.alert "Error" "Failed to get response from the server." ∈
        sendToBackend v r := by
  have hr : outcomeOf r = Outcome.requestFailed := by
    rcases h with h | ⟨st, h⟩ <;> subst h <;> rfl
  refine ⟨?_, ?_, ?_⟩ <;>
    simp [applyEffects, sendToBackend, tryBody, hr, applyEffect, List.foldl]

/-- Concrete session state that is mid-send with one user message. -/
def c8State : SessionState :=
  { messages := [mkMessage 0 "hello" Sender.user], isListening := false,
    manualText := "", voiceOutputEnabled := true, isSending := true }

/-- C8 (witness): the frame theorem applied at a concrete network failure. -/
theorem c8_witness :
    (applyEffects 1 c8State (sendToBackend true FetchResult.networkError)).messages =
      c8State.messages
    ∧ (applyEffects 1 c8State (sendToBackend true FetchResult.networkError)).isSending = false
    ∧ Effect.alert "Error" "Failed to get response from the server." ∈
        sendToBackend true FetchResult.networkError :=
  c8_request_failed_frame true 1 c8State FetchResult.networkError (Or.inl rfl)

/-- C9: an engine error event received while `listening = true` sets
`listening` to false, leaves the input buffer, transcript, `sending` and
`voiceOutputEnabled` unchanged, and reports the error reason in a user-facing
alert. -/
theorem c9_speech_error_frame (s : SessionState) (reason : String)
    (h : s.isListening = true) :
    (onSpeechError reason s).1.isListening = false
    ∧ (onSpeechError reason s).1.manualText = s.manualText
    ∧ (onSpeechError reason s).1.messages = s.messages
    ∧ (onSpeechError reason s).1.isSending = s.isSending
    ∧ (onSpeechError reason s).1.voiceOutputEnabled = s.voiceOutputEnabled
    ∧ Effect.alert "Speech Recognition Error" reason ∈ (onSpeechError reason s).2 := by
  refine ⟨rfl, rfl, rfl, rfl, rfl, ?_⟩
  simp [onSpeechError]

/-- Concrete session state that is listening with a drafted buffer. -/
def c9State : SessionState :=
  { messages := [mkMessage 0 "hi" Sender.user], isListening := true,
    manualText := "draft", voiceOutputEnabled := true, isSending := true }

/-- C9 (witness): the frame theorem applied at a concrete listening state and
the engine error "no match". -/
theorem c9_witness :
    (onSpeechError "no match" c9State).1.isListening = false
    ∧ (onSpeechError "no match" c9State).1.manualText = c9State.manualText
    ∧ (onSpeechError "no match" c9State).1.messages = c9State.messages
    ∧ (onSpeechError "no match" c9State).1.isSending = c9State.isSending
    ∧ (onSpeechError "no match" c9State).1.voiceOutputEnabled = c9State.voiceOutputEnabled
    ∧ Effect.alert "Speech Recognition Error" "no match" ∈
        (onSpeechError "no match" c9State).2 :=
  c9_speech_error_frame c9State "no match" rfl

/-- C10: for every 2xx (indeed any) response whose JSON body has an `answer`
field equal to the empty string, the dispatch trace appends exactly the fixed
fallback assistant message "No response from LLM." and contains no speak
command, for every value of the captured `voiceOutputEnabled`. -/
theorem c10_empty_answer_fallback (v : Bool) (st : Nat) :
    sendToBackend v (FetchResult.response st (BodyParse.json (some ""))) =
      [Effect.setSending true, Effect.appendLlm "No response from LLM.",
        Effect.setSending false]
    ∧ ∀ t, Effect.speak t ∉
        sendToBackend v (FetchResult.response st (BodyParse.json (some ""))) := by
  refine ⟨rfl, ?_⟩
  intro t
  simp [sendToBackend, tryBody, outcomeOf]

end JarvisApp
